import Mathlib

/-!
Verification of the `serde_either` library (src/enums.rs, src/de.rs, src/se.rs).

The library defines three "either" enums (`StringOrStruct`, `StringOrStructOrVec`,
`SingleOrVec`) together with serde `Deserialize`/`Serialize` implementations.
Deserialization buffers the input into a `serde_value::Value`, inspects the
top-level shape and re-drives the buffered value through a typed decoder.

Embedding conventions:
- `serde_value::Value` is the inductive `Value` below, one constructor per
  Rust variant.  Integer payloads are `Nat`/`Int` (the `as u64`/`as i64`
  widenings in `unexpected` are value-preserving, so no modular wrap occurs).
  Float payloads are carried as their bit patterns; the `f32 -> f64` widening
  performed by `unexpected` is injective and lossless, so `Unexpected.Float`
  carries the width tag together with the original bits.
- A serde deserializer for a payload type `T` driven from a
  `ValueDeserializer` is a function `Value → Except DeError T`; the generic
  payload decoders `S`, `V` of the Rust code are universally quantified
  functions of that type.
- The front-end deserializer handed to the top-level `deserialize` is
  modelled by its result: `Except DeError Value` (either a front-end error or
  the fully buffered value).
- `String::deserialize(ValueDeserializer::new(v))` is `stringDeserialize`:
  serde's `String` visitor accepts strings directly and byte-strings through
  `str::from_utf8`, failing with `invalid_value` on non-UTF-8 bytes; the
  UTF-8 check is implemented concretely below (`utf8Decode`).
- `Vec::<S>::deserialize(ValueDeserializer::new(v))` is `vecDeserialize`:
  a sequence is decoded elementwise, any other shape is an invalid-type
  error against the expectation "a sequence".
- A serde `Serializer` with output type `R` is modelled by the functions the
  payload `Serialize` impls provide: each payload serializes via its own
  function `T → R`; Rust's `String` serializes through the serializer's
  string case, modelled by an abstract `serStr : String → R`.
-/

/-- Mirror of `serde_value::Value`: every primitive scalar plus unit, option,
newtype, sequence, map and byte-string shapes. -/
inductive Value where
  | Bool (b : Bool)
  | U8 (n : Nat)
  | U16 (n : Nat)
  | U32 (n : Nat)
  | U64 (n : Nat)
  | I8 (n : Int)
  | I16 (n : Int)
  | I32 (n : Int)
  | I64 (n : Int)
  | F32 (bits : Nat)
  | F64 (bits : Nat)
  | Char (c : Char)
  | String (s : String)
  | Unit
  | Option (o : Option Value)
  | Newtype (v : Value)
  | Seq (l : List Value)
  | Map (m : List (Value × Value))
  | Bytes (b : List Nat)
deriving Repr

/-- Mirror of `serde::de::Unexpected`.  `Float` keeps the width tag of the
original value because the `as f64` widening applied in `unexpected` is
injective on `f32` bit patterns. -/
inductive Unexpected where
  | Bool (b : Bool)
  | Unsigned (n : Nat)
  | Signed (n : Int)
  | Float (isF32 : Bool) (bits : Nat)
  | Char (c : Char)
  | Str (s : String)
  | Unit
  | Option
  | NewtypeStruct
  | Seq
  | Map
  | Bytes (b : List Nat)
deriving Repr

/-- Deserialization errors: serde's `invalid_type` and `invalid_value`
constructors used by this library and its collaborators, plus an opaque
custom message for arbitrary front-end or payload errors. -/
inductive DeError where
  | invalidType (got : Unexpected) (expected : String)
  | invalidValue (got : Unexpected) (expected : String)
  | custom (msg : String)
deriving Repr

/-- Mirror of `fn unexpected(value: &Value) -> Unexpected` in src/de.rs. -/
def unexpected : Value → Unexpected
  | .Bool b => .Bool b
  | .U8 n => .Unsigned n
  | .U16 n => .Unsigned n
  | .U32 n => .Unsigned n
  | .U64 n => .Unsigned n
  | .I8 n => .Signed n
  | .I16 n => .Signed n
  | .I32 n => .Signed n
  | .I64 n => .Signed n
  | .F32 bits => .Float true bits
  | .F64 bits => .Float false bits
  | .Char c => .Char c
  | .String s => .Str s
  | .Unit => .Unit
  | .Option _ => .Option
  | .Newtype _ => .NewtypeStruct
  | .Seq _ => .Seq
  | .Map _ => .Map
  | .Bytes b => .Bytes b

/-- Is a byte a UTF-8 continuation byte (0x80..0xBF)? -/
def isCont (b : Nat) : Bool := 0x80 ≤ b && b ≤ 0xBF

/-- UTF-8 decoding of a byte list into code points, mirroring
`core::str::from_utf8`: rejects overlong encodings, surrogates and
code points above 0x10FFFF. -/
def utf8DecodeAux : List Nat → Option (List Nat)
  | [] => some []
  | b0 :: t0 =>
    if b0 < 0x80 then (utf8DecodeAux t0).map (fun cs => b0 :: cs)
    else if b0 < 0xC2 then none
    else if b0 ≤ 0xDF then
      match t0 with
      | b1 :: t1 =>
        if isCont b1 then
          (utf8DecodeAux t1).map (fun cs => ((b0 - 0xC0) * 0x40 + (b1 - 0x80)) :: cs)
        else none
      | [] => none
    else if b0 ≤ 0xEF then
      match t0 with
      | b1 :: b2 :: t2 =>
        let b1ok :=
          if b0 = 0xE0 then 0xA0 ≤ b1 && b1 ≤ 0xBF
          else if b0 = 0xED then 0x80 ≤ b1 && b1 ≤ 0x9F
          else isCont b1
        if b1ok && isCont b2 then
          (utf8DecodeAux t2).map
            (fun cs => ((b0 - 0xE0) * 0x1000 + (b1 - 0x80) * 0x40 + (b2 - 0x80)) :: cs)
        else none
      | _ => none
    else if b0 ≤ 0xF4 then
      match t0 with
      | b1 :: b2 :: b3 :: t3 =>
        let b1ok :=
          if b0 = 0xF0 then 0x90 ≤ b1 && b1 ≤ 0xBF
          else if b0 = 0xF4 then 0x80 ≤ b1 && b1 ≤ 0x8F
          else isCont b1
        if b1ok && isCont b2 && isCont b3 then
          (utf8DecodeAux t3).map
            (fun cs =>
              ((b0 - 0xF0) * 0x40000 + (b1 - 0x80) * 0x1000 +
                (b2 - 0x80) * 0x40 + (b3 - 0x80)) :: cs)
        else none
      | _ => none
    else none

/-- Decode a UTF-8 byte list into a string, or `none` when invalid. -/
def utf8Decode (b : List Nat) : Option String :=
  (utf8DecodeAux b).map (fun cps => String.mk (cps.map Char.ofNat))

/-- Model of `String::deserialize(ValueDeserializer::new(value))`: serde's
string visitor returns string payloads directly, decodes byte-strings as
UTF-8 (raising `invalid_value` on failure) and raises `invalid_type` against
the expectation "a string" on every other shape. -/
def stringDeserialize : Value → Except DeError String
  | .String s => .ok s
  | .Bytes b =>
    match utf8Decode b with
    | some s => .ok s
    | none => .error (.invalidValue (.Bytes b) "a string")
  | v => .error (.invalidType (unexpected v) "a string")

/-- Model of `Vec::<S>::deserialize(ValueDeserializer::new(value))`: a
sequence is decoded elementwise with the payload decoder, every other shape
is an invalid-type error. -/
def vecDeserialize (d : Value → Except DeError α) : Value → Except DeError (List α)
  | .Seq l => l.mapM d
  | v => .error (.invalidType (unexpected v) "a sequence")

/-- Mirror of `enum StringOrStruct<S>` in src/enums.rs. -/
inductive StringOrStruct (S : Type) where
  | String (s : String)
  | Struct (v : S)
deriving Repr

/-- Mirror of `enum StringOrStructOrVec<S, V>` in src/enums.rs. -/
inductive StringOrStructOrVec (S V : Type) where
  | String (s : String)
  | Struct (v : S)
  | Vec (v : V)
deriving Repr

/-- Mirror of `enum SingleOrVec<S>` in src/enums.rs. -/
inductive SingleOrVec (S : Type) where
  | Single (v : S)
  | Vec (v : List S)
deriving Repr

/-- Mirror of `StringOrStructOrVec::deserialize_with_expected` in src/de.rs:
buffer the input into a `Value`, then dispatch on its shape; string and
byte-string shapes re-decode as a string payload, sequences through the `V`
decoder, maps through the `S` decoder, and every other shape fails with
`invalid_type` carrying the rendered value and the expectation string. -/
def deserialize_with_expected (dS : Value → Except DeError S) (dV : Value → Except DeError V)
    (deserializer : Except DeError Value) (expected : String) :
    Except DeError (StringOrStructOrVec S V) := do
  let value ← deserializer
  match value with
  | .String _ | .Bytes _ => return .String (← stringDeserialize value)
  | .Seq _ => return .Vec (← dV value)
  | .Map _ => return .Struct (← dS value)
  | _ => throw (.invalidType (unexpected value) expected)

/-- Mirror of `impl Deserialize for StringOrStructOrVec` in src/de.rs. -/
def StringOrStructOrVec.deserialize (dS : Value → Except DeError S)
    (dV : Value → Except DeError V) (deserializer : Except DeError Value) :
    Except DeError (StringOrStructOrVec S V) :=
  deserialize_with_expected dS dV deserializer "String, Struct or Vec"

/-- Mirror of `impl Deserialize for StringOrStruct` in src/de.rs: run the
three-way dispatcher with `S` bound to both slots and the expectation
"String or Struct", then re-map a `Vec` result into the `Struct` variant. -/
def StringOrStruct.deserialize (dS : Value → Except DeError S)
    (deserializer : Except DeError Value) : Except DeError (StringOrStruct S) := do
  let value ← deserialize_with_expected dS dS deserializer "String or Struct"
  match value with
  | .String s => return StringOrStruct.String s
  | .Struct v | .Vec v => return StringOrStruct.Struct v

/-- Mirror of `impl Deserialize for SingleOrVec` in src/de.rs: buffer the
input into a `Value`; a sequence decodes as `Vec<S>` into the `Vec` variant,
everything else decodes directly as a single `S` into the `Single` variant. -/
def SingleOrVec.deserialize (dS : Value → Except DeError S)
    (deserializer : Except DeError Value) : Except DeError (SingleOrVec S) := do
  let value ← deserializer
  match value with
  | .Seq _ => return SingleOrVec.Vec (← vecDeserialize dS value)
  | _ => return SingleOrVec.Single (← dS value)

/-- Alias for Rust's `String` payload type, needed where the enum namespaces
shadow the name `String` with their own constructor. -/
abbrev RustString := String

/-- Mirror of `impl Serialize for StringOrStructOrVec` in src/se.rs: each
variant delegates to its payload's own serialize; `serStr` is `String`'s
serialize against the chosen serializer. -/
def StringOrStructOrVec.serialize (serStr : RustString → R) (serS : S → R) (serV : V → R) :
    StringOrStructOrVec S V → R
  | .String s => serStr s
  | .Struct s => serS s
  | .Vec v => serV v

/-- Mirror of `impl Serialize for StringOrStruct` in src/se.rs. -/
def StringOrStruct.serialize (serStr : RustString → R) (serS : S → R) :
    StringOrStruct S → R
  | .String s => serStr s
  | .Struct s => serS s

/-- Mirror of `impl Serialize for SingleOrVec` in src/se.rs; `serVec` is
`Vec<S>`'s own serialize against the chosen serializer. -/
def SingleOrVec.serialize (serS : S → R) (serVec : List S → R) :
    SingleOrVec S → R
  | .Single s => serS s
  | .Vec s => serVec s

/-- Mirror of `impl Clone for StringOrStruct` in src/enums.rs; `String`'s
clone produces an equal string, modelled as the identity. -/
def StringOrStruct.clone (cloneS : S → S) : StringOrStruct S → StringOrStruct S
  | .String as_string => .String as_string
  | .Struct as_struct => .Struct (cloneS as_struct)

/-- Mirror of `impl Clone for StringOrStructOrVec` in src/enums.rs. -/
def StringOrStructOrVec.clone (cloneS : S → S) (cloneV : V → V) :
    StringOrStructOrVec S V → StringOrStructOrVec S V
  | .String as_string => .String as_string
  | .Struct as_struct => .Struct (cloneS as_struct)
  | .Vec as_vec => .Vec (cloneV as_vec)

/-- Mirror of `impl Clone for SingleOrVec` in src/enums.rs; `Vec<S>`'s clone
clones every element. -/
def SingleOrVec.clone (cloneS : S → S) : SingleOrVec S → SingleOrVec S
  | .Single as_single => .Single (cloneS as_single)
  | .Vec as_vec => .Vec (as_vec.map cloneS)

/-- Is the top-level shape a sequence? -/
def isSeqShape : Value → Bool
  | .Seq _ => true
  | _ => false

/-- Is the top-level shape a map? -/
def isMapShape : Value → Bool
  | .Map _ => true
  | _ => false

/-- Is the top-level shape none of string, byte-string, sequence or map —
i.e. one of the shapes the dispatcher rejects? -/
def isOtherShape : Value → Bool
  | .String _ | .Bytes _ | .Seq _ | .Map _ => false
  | _ => true

/-- Model of `u8::deserialize(ValueDeserializer::new(value))`: serde's `u8`
visitor accepts any integer value fitting in 0..=255 (out of range raises
`invalid_value`) and rejects every other shape with `invalid_type`. -/
def u8Deserialize : Value → Except DeError Nat
  | .U8 n => .ok n
  | .U16 n => if n ≤ 255 then .ok n else .error (.invalidValue (.Unsigned n) "u8")
  | .U32 n => if n ≤ 255 then .ok n else .error (.invalidValue (.Unsigned n) "u8")
  | .U64 n => if n ≤ 255 then .ok n else .error (.invalidValue (.Unsigned n) "u8")
  | .I8 n => if 0 ≤ n then .ok n.toNat else .error (.invalidValue (.Signed n) "u8")
  | .I16 n => if 0 ≤ n ∧ n ≤ 255 then .ok n.toNat else .error (.invalidValue (.Signed n) "u8")
  | .I32 n => if 0 ≤ n ∧ n ≤ 255 then .ok n.toNat else .error (.invalidValue (.Signed n) "u8")
  | .I64 n => if 0 ≤ n ∧ n ≤ 255 then .ok n.toNat else .error (.invalidValue (.Signed n) "u8")
  | v => .error (.invalidType (unexpected v) "u8")

/-- Model of `i32::deserialize(ValueDeserializer::new(value))`: serde's
`i32` visitor accepts any integer value fitting in the i32 range (out of
range raises `invalid_value`) and rejects every other shape with
`invalid_type`. -/
def i32Deserialize : Value → Except DeError Int
  | .U8 n => .ok n
  | .U16 n => .ok n
  | .U32 n => if n ≤ 2147483647 then .ok n else .error (.invalidValue (.Unsigned n) "i32")
  | .U64 n => if n ≤ 2147483647 then .ok n else .error (.invalidValue (.Unsigned n) "i32")
  | .I8 n => .ok n
  | .I16 n => .ok n
  | .I32 n => .ok n
  | .I64 n =>
    if -2147483648 ≤ n ∧ n ≤ 2147483647 then .ok n
    else .error (.invalidValue (.Signed n) "i32")
  | v => .error (.invalidType (unexpected v) "i32")

/-- Mirror of the test fixture `struct SimpleStruct { number: i32, text: String }`
from tests/common/mod.rs, used as a concrete payload with named fields. -/
structure SimpleStruct where
  number : Int
  text : String
deriving Repr, DecidableEq

/-- Field-by-field consumption of a buffered map by the derived
`SimpleStruct` deserializer: string keys select the matching field (with
duplicate-field detection), unknown string keys are ignored (serde's
default), non-string keys fail as field identifiers, and at the end both
fields must be present. -/
def parseSimpleStructFields :
    List (Value × Value) → Option Int → Option String → Except DeError SimpleStruct
  | [], some n, some t => .ok ⟨n, t⟩
  | [], none, _ => .error (.custom "missing field `number`")
  | [], some _, none => .error (.custom "missing field `text`")
  | (k, v) :: rest, accN, accT =>
    match k with
    | .String s =>
      if s = "number" then
        match accN with
        | some _ => .error (.custom "duplicate field `number`")
        | none => do
          let n ← i32Deserialize v
          parseSimpleStructFields rest (some n) accT
      else if s = "text" then
        match accT with
        | some _ => .error (.custom "duplicate field `text`")
        | none => do
          let t ← stringDeserialize v
          parseSimpleStructFields rest accN (some t)
      else parseSimpleStructFields rest accN accT
    | _ => .error (.invalidType (unexpected k) "field identifier")

/-- Model of the derived `SimpleStruct::deserialize(ValueDeserializer::new(value))`:
a map is consumed field by field, a sequence supplies the fields in
declaration order (first `number`, then `text`, with no trailing elements),
and every other shape is an invalid-type error. -/
def simpleStructDeserialize : Value → Except DeError SimpleStruct
  | .Map m => parseSimpleStructFields m none none
  | .Seq l =>
    match l with
    | v0 :: v1 :: rest => do
      let n ← i32Deserialize v0
      let t ← stringDeserialize v1
      if rest.isEmpty then return ⟨n, t⟩
      else throw (.invalidValue .Seq "struct SimpleStruct with 2 elements")
    | _ => .error (.invalidValue .Seq "struct SimpleStruct with 2 elements")
  | v => .error (.invalidType (unexpected v) "struct SimpleStruct")

/-- Modelled from the spec (§4.2 specialization of `StringOrStruct`): call
the three-way dispatcher with the same type substituted for both the `S` and
`V` slots and the expectation string "String or Struct", then collapse the
result by re-mapping a `Vec` output into the `Struct` variant. -/
def stringOrStructDeserializeSpec (dS : Value → Except DeError S)
    (deserializer : Except DeError Value) : Except DeError (StringOrStruct S) :=
  (deserialize_with_expected dS dS deserializer "String or Struct").map
    (fun v =>
      match v with
      | .String s => StringOrStruct.String s
      | .Struct x => StringOrStruct.Struct x
      | .Vec x => StringOrStruct.Struct x)

-- Helper lemmas unfolding the dispatcher per input shape.

theorem dwe_frontend_err (dS : Value → Except DeError S) (dV : Value → Except DeError V)
    (e0 : DeError) (e : String) :
    deserialize_with_expected dS dV (.error e0) e = .error e0 := rfl

theorem dwe_string (dS : Value → Except DeError S) (dV : Value → Except DeError V)
    (s : String) (e : String) :
    deserialize_with_expected dS dV (.ok (.String s)) e = .ok (.String s) := rfl

theorem dwe_bytes (dS : Value → Except DeError S) (dV : Value → Except DeError V)
    (b : List Nat) (e : String) :
    deserialize_with_expected dS dV (.ok (.Bytes b)) e
      = (stringDeserialize (.Bytes b)).map StringOrStructOrVec.String := by
  cases h : utf8Decode b <;>
    simp [deserialize_with_expected, stringDeserialize, h, Except.map, Except.bind, bind, pure,
      Except.pure]

theorem dwe_seq (dS : Value → Except DeError S) (dV : Value → Except DeError V)
    (l : List Value) (e : String) :
    deserialize_with_expected dS dV (.ok (.Seq l)) e
      = (dV (.Seq l)).map StringOrStructOrVec.Vec := by
  cases h : dV (.Seq l) <;>
    simp [deserialize_with_expected, h, Except.map, Except.bind, bind, pure, Except.pure]

theorem dwe_map (dS : Value → Except DeError S) (dV : Value → Except DeError V)
    (m : List (Value × Value)) (e : String) :
    deserialize_with_expected dS dV (.ok (.Map m)) e
      = (dS (.Map m)).map StringOrStructOrVec.Struct := by
  cases h : dS (.Map m) <;>
    simp [deserialize_with_expected, h, Except.map, Except.bind, bind, pure, Except.pure]

theorem dwe_other (dS : Value → Except DeError S) (dV : Value → Except DeError V)
    (v : Value) (e : String) (hv : isOtherShape v = true) :
    deserialize_with_expected dS dV (.ok v) e
      = .error (.invalidType (unexpected v) e) := by
  cases v <;> simp_all [isOtherShape] <;> rfl

theorem sov_seq (dS : Value → Except DeError S) (l : List Value) :
    SingleOrVec.deserialize dS (.ok (.Seq l))
      = (vecDeserialize dS (.Seq l)).map SingleOrVec.Vec := by
  rw [show SingleOrVec.deserialize dS (.ok (.Seq l))
      = Except.bind (vecDeserialize dS (.Seq l))
          (fun x => Except.ok (SingleOrVec.Vec x)) from rfl]
  cases vecDeserialize dS (.Seq l) <;> rfl

theorem sov_non_seq (dS : Value → Except DeError S) (v : Value)
    (hv : isSeqShape v = false) :
    SingleOrVec.deserialize dS (.ok v) = (dS v).map SingleOrVec.Single := by
  have hbind : SingleOrVec.deserialize dS (.ok v)
      = Except.bind (dS v) (fun x => Except.ok (SingleOrVec.Single x)) := by
    cases v <;> first
      | rfl
      | simp [isSeqShape] at hv
  rw [hbind]
  cases dS v <;> rfl

theorem sos_seq (dS : Value → Except DeError S) (l : List Value) :
    StringOrStruct.deserialize dS (.ok (.Seq l))
      = (dS (.Seq l)).map StringOrStruct.Struct := by
  cases hd : dS (.Seq l) <;>
    simp [StringOrStruct.deserialize, dwe_seq, hd, Except.map, Except.bind, bind, pure,
      Except.pure]

theorem sos_map (dS : Value → Except DeError S) (m : List (Value × Value)) :
    StringOrStruct.deserialize dS (.ok (.Map m))
      = (dS (.Map m)).map StringOrStruct.Struct := by
  cases hd : dS (.Map m) <;>
    simp [StringOrStruct.deserialize, dwe_map, hd, Except.map, Except.bind, bind, pure,
      Except.pure]

theorem sos_bytes (dS : Value → Except DeError S) (b : List Nat) :
    StringOrStruct.deserialize dS (.ok (.Bytes b))
      = (stringDeserialize (.Bytes b)).map StringOrStruct.String := by
  cases hd : stringDeserialize (.Bytes b) <;>
    simp [StringOrStruct.deserialize, dwe_bytes, hd, Except.map, Except.bind, bind, pure,
      Except.pure]

/-- C1: for every pair of payload decoders `dS`, `dV` and every buffered
input of string shape, both `StringOrStructOrVec` and `StringOrStruct`
deserialization yield the `String` variant holding exactly that text, and on
a byte-string input that decodes as text they yield the `String` variant
holding that text — in all cases the result does not mention `dS` or `dV`,
so the `S` and `V` decoders are never invoked. -/
theorem C1_string_shape_yields_String_variant
    (S V : Type) (dS : Value → Except DeError S) (dV : Value → Except DeError V)
    (s : String) (b : List Nat) (t : String) (hb : utf8Decode b = some t) :
    StringOrStructOrVec.deserialize dS dV (.ok (.String s)) = .ok (.String s)
    ∧ StringOrStruct.deserialize dS (.ok (.String s)) = .ok (.String s)
    ∧ StringOrStructOrVec.deserialize dS dV (.ok (.Bytes b)) = .ok (.String t)
    ∧ StringOrStruct.deserialize dS (.ok (.Bytes b)) = .ok (.String t) := by
  refine ⟨rfl, rfl, ?_, ?_⟩
  · simp [StringOrStructOrVec.deserialize, dwe_bytes, stringDeserialize, hb, Except.map]
  · simp [StringOrStruct.deserialize, dwe_bytes, stringDeserialize, hb, Except.map,
      Except.bind, bind, pure, Except.pure]

/-- Witness for C1 at concrete inputs: the string "some string" and the
byte-string [104, 105] (UTF-8 for "hi"), with decoders that would accept
anything — the string still wins. -/
theorem C1_witness :
    utf8Decode [104, 105] = some "hi"
    ∧ StringOrStructOrVec.deserialize (fun _ => (Except.ok 0 : Except DeError Nat))
        (fun _ => (Except.ok 0 : Except DeError Nat))
        (.ok (.String "some string")) = .ok (.String "some string")
    ∧ StringOrStruct.deserialize (fun _ => (Except.ok 0 : Except DeError Nat))
        (.ok (.Bytes [104, 105])) = .ok (.String "hi") := by
  have h : utf8Decode [104, 105] = some "hi" := rfl
  have hmain := C1_string_shape_yields_String_variant Nat Nat
    (fun _ => Except.ok 0) (fun _ => Except.ok 0) "some string" [104, 105] "hi" h
  exact ⟨h, hmain.1, hmain.2.2.2⟩

/-- C2: for every buffered input whose shape is none of string, byte-string,
sequence or map, both deserializers fail at dispatch time with an
`invalid_type` error carrying the rendering of the actual value and the
static expectation string of the respective type. -/
theorem C2_other_shapes_invalid_type
    (S V : Type) (dS : Value → Except DeError S) (dV : Value → Except DeError V)
    (v : Value) (hv : isOtherShape v = true) :
    StringOrStructOrVec.deserialize dS dV (.ok v)
      = .error (.invalidType (unexpected v) "String, Struct or Vec")
    ∧ StringOrStruct.deserialize dS (.ok v)
      = .error (.invalidType (unexpected v) "String or Struct") := by
  constructor
  · simp [StringOrStructOrVec.deserialize, dwe_other dS dV v _ hv]
  · simp [StringOrStruct.deserialize, dwe_other dS dS v _ hv, Except.bind, bind]

/-- Witness for C2 at the spec's example value, the unsigned integer 18. -/
theorem C2_witness :
    StringOrStructOrVec.deserialize (fun _ => (Except.ok 0 : Except DeError Nat))
        (fun _ => (Except.ok 0 : Except DeError Nat)) (.ok (.U64 18))
      = .error (.invalidType (.Unsigned 18) "String, Struct or Vec")
    ∧ StringOrStruct.deserialize (fun _ => (Except.ok 0 : Except DeError Nat))
        (.ok (.U64 18))
      = .error (.invalidType (.Unsigned 18) "String or Struct") :=
  C2_other_shapes_invalid_type Nat Nat (fun _ => Except.ok 0) (fun _ => Except.ok 0)
    (.U64 18) rfl

/-- C3: `StringOrStruct` deserialization is exactly the three-way dispatcher
with `S` bound to both the `Struct` and `Vec` slots followed by re-mapping a
`Vec` result into the `Struct` variant; consequently a sequence-shaped input
decodes through `S` itself and is returned as the `Struct` variant, and for
`S = Vec<u8>` an array of integers yields `Struct` holding the vector. -/
theorem C3_string_or_struct_collapses_dispatcher
    (S : Type) (dS : Value → Except DeError S) (input : Except DeError Value) :
    StringOrStruct.deserialize dS input = stringOrStructDeserializeSpec dS input
    ∧ (∀ l, StringOrStruct.deserialize dS (.ok (.Seq l))
        = (dS (.Seq l)).map StringOrStruct.Struct)
    ∧ StringOrStruct.deserialize (vecDeserialize u8Deserialize)
        (.ok (.Seq [.U64 1, .U64 5, .U64 8, .U64 12, .U64 32]))
      = .ok (.Struct [1, 5, 8, 12, 32]) := by
  refine ⟨?_, ?_, rfl⟩
  · cases h : deserialize_with_expected dS dS input "String or Struct" with
    | error e =>
      simp [StringOrStruct.deserialize, stringOrStructDeserializeSpec, h, Except.map,
        Except.bind, bind]
    | ok a =>
      cases a <;>
        simp [StringOrStruct.deserialize, stringOrStructDeserializeSpec, h, Except.map,
          Except.bind, bind, pure, Except.pure]
  · intro l
    cases hd : dS (.Seq l) <;>
      simp [StringOrStruct.deserialize, dwe_seq, hd, Except.map, Except.bind, bind, pure,
        Except.pure]

/-- C4: `SingleOrVec` deserialization splits on shape alone — a sequence
decodes elementwise through `S` into the `Vec` variant, every other shape
decodes directly through `S` into the `Single` variant, so the only errors
for a buffered non-sequence input are exactly those of the `S` decoder, and
a front-end error propagates unchanged; no shape-mismatch error of its own
is ever raised. -/
theorem C4_single_or_vec_two_way_split (S : Type) (dS : Value → Except DeError S) :
    (∀ l, SingleOrVec.deserialize dS (.ok (.Seq l))
        = (vecDeserialize dS (.Seq l)).map SingleOrVec.Vec)
    ∧ (∀ v, isSeqShape v = false →
        SingleOrVec.deserialize dS (.ok v) = (dS v).map SingleOrVec.Single)
    ∧ ∀ e, SingleOrVec.deserialize dS (.error e) = .error e := by
  exact ⟨sov_seq dS, sov_non_seq dS, fun e => rfl⟩

/-- Witness for C4 at concrete inputs: a singleton sequence of strings goes
to the `Vec` variant, a bare string and a map-shaped input go to the
`Single` path, the latter surfacing exactly the string decoder's error. -/
theorem C4_witness :
    SingleOrVec.deserialize stringDeserialize (.ok (.Seq [.String "x"]))
      = .ok (.Vec ["x"])
    ∧ SingleOrVec.deserialize stringDeserialize (.ok (.String "a"))
      = .ok (.Single "a")
    ∧ SingleOrVec.deserialize stringDeserialize (.ok (.Map []))
      = (stringDeserialize (.Map [])).map SingleOrVec.Single := by
  obtain ⟨h1, h2, h3⟩ := C4_single_or_vec_two_way_split String stringDeserialize
  refine ⟨?_, ?_, h2 (.Map []) rfl⟩
  · rw [h1 [.String "x"]]; rfl
  · rw [h2 (.String "a") rfl]; rfl

/-- C5 counterexample: the round-trip law does not hold for every payload
type `S`.  Take `S = String`: encoding `Struct "hi"` delegates to the string
payload's own serialize, producing a bare string, which the decoder's shape
dispatch classifies into the `String` variant — the round trip returns
`String "hi"`, not `Struct "hi"`. -/
theorem C5_counterexample :
    StringOrStruct.deserialize stringDeserialize
      (.ok (StringOrStruct.serialize Value.String Value.String
        (StringOrStruct.Struct "hi")))
      = .ok (StringOrStruct.String "hi")
    ∧ StringOrStruct.deserialize stringDeserialize
        (.ok (StringOrStruct.serialize Value.String Value.String
          (StringOrStruct.Struct "hi")))
      ≠ .ok (StringOrStruct.Struct "hi") := by
  have heval : StringOrStruct.deserialize stringDeserialize
      (.ok (StringOrStruct.serialize Value.String Value.String
        (StringOrStruct.Struct "hi")))
      = .ok (StringOrStruct.String "hi") := rfl
  refine ⟨heval, ?_⟩
  rw [heval]
  simp

/-- C5 amended: for every payload type `S` whose own encoding produces a
map- or sequence-shaped value and whose decoder inverts its encoder,
encoding `Struct s` and decoding the result reproduces `Struct s`; encoding
a `String` variant and decoding the result preserves the exact string
unconditionally. -/
theorem C5_struct_roundtrip_for_map_or_seq_shaped_payloads
    (S : Type) (sS : S → Value) (dS : Value → Except DeError S) :
    (∀ s : S, (isMapShape (sS s) || isSeqShape (sS s)) = true → dS (sS s) = .ok s →
      StringOrStruct.deserialize dS
        (.ok (StringOrStruct.serialize Value.String sS (StringOrStruct.Struct s)))
        = .ok (StringOrStruct.Struct s))
    ∧ ∀ str : String, StringOrStruct.deserialize dS
        (.ok (StringOrStruct.serialize Value.String sS (StringOrStruct.String str)))
        = .ok (StringOrStruct.String str) := by
  constructor
  · intro s hshape hinv
    rw [show StringOrStruct.serialize Value.String sS (StringOrStruct.Struct s)
        = sS s from rfl]
    cases hm : sS s <;> rw [hm] at hshape hinv <;>
      simp [isMapShape, isSeqShape] at hshape <;>
      simp [sos_map, sos_seq, hinv, Except.map]
  · intro str
    rfl

/-- Witness for the amended C5: a payload whose encode is `Value.Map` and
whose decode unwraps it round-trips through the `Struct` variant. -/
theorem C5_witness :
    StringOrStruct.deserialize
      (fun v => match v with
        | Value.Map m => Except.ok m
        | v => Except.error (DeError.invalidType (unexpected v) "a map"))
      (.ok (StringOrStruct.serialize Value.String Value.Map
        (StringOrStruct.Struct [(Value.String "k", Value.U64 1)])))
      = .ok (StringOrStruct.Struct [(Value.String "k", Value.U64 1)]) :=
  (C5_struct_roundtrip_for_map_or_seq_shaped_payloads (List (Value × Value)) Value.Map
    (fun v => match v with
      | Value.Map m => Except.ok m
      | v => Except.error (DeError.invalidType (unexpected v) "a map"))).1
    [(Value.String "k", Value.U64 1)] rfl rfl

/-- C6: a front-end error propagates unchanged through every either-type's
decode, and once a shape branch is selected, a failure of the typed payload
decoder is returned to the caller exactly as produced — never caught,
reinterpreted or retried under another shape. -/
theorem C6_errors_propagate_unchanged (S V : Type)
    (dS : Value → Except DeError S) (dV : Value → Except DeError V) (e : DeError) :
    (StringOrStructOrVec.deserialize dS dV (.error e) = .error e)
    ∧ (StringOrStruct.deserialize dS (.error e) = .error e)
    ∧ (SingleOrVec.deserialize dS (.error e) = .error e)
    ∧ (∀ m, dS (.Map m) = .error e →
        StringOrStructOrVec.deserialize dS dV (.ok (.Map m)) = .error e
        ∧ StringOrStruct.deserialize dS (.ok (.Map m)) = .error e)
    ∧ (∀ l, dV (.Seq l) = .error e →
        StringOrStructOrVec.deserialize dS dV (.ok (.Seq l)) = .error e)
    ∧ (∀ l, dS (.Seq l) = .error e →
        StringOrStruct.deserialize dS (.ok (.Seq l)) = .error e)
    ∧ (∀ b, stringDeserialize (.Bytes b) = .error e →
        StringOrStructOrVec.deserialize dS dV (.ok (.Bytes b)) = .error e
        ∧ StringOrStruct.deserialize dS (.ok (.Bytes b)) = .error e)
    ∧ (∀ v, isSeqShape v = false → dS v = .error e →
        SingleOrVec.deserialize dS (.ok v) = .error e)
    ∧ (∀ l, vecDeserialize dS (.Seq l) = .error e →
        SingleOrVec.deserialize dS (.ok (.Seq l)) = .error e) := by
  refine ⟨rfl, rfl, rfl, ?_, ?_, ?_, ?_, ?_, ?_⟩
  · intro m h
    exact ⟨by simp [StringOrStructOrVec.deserialize, dwe_map, h, Except.map],
      by simp [sos_map, h, Except.map]⟩
  · intro l h
    simp [StringOrStructOrVec.deserialize, dwe_seq, h, Except.map]
  · intro l h
    simp [sos_seq, h, Except.map]
  · intro b h
    exact ⟨by simp [StringOrStructOrVec.deserialize, dwe_bytes, h, Except.map],
      by simp [sos_bytes, h, Except.map]⟩
  · intro v hv h
    simp [sov_non_seq dS v hv, h, Except.map]
  · intro l h
    simp [sov_seq, h, Except.map]

/-- Witness for C6 with decoders that always fail with a custom error: the
error surfaces unchanged through each either-type. -/
theorem C6_witness :
    StringOrStructOrVec.deserialize
        (fun _ => (Except.error (DeError.custom "boom") : Except DeError Nat))
        (fun _ => (Except.error (DeError.custom "boom") : Except DeError Nat))
        (.ok (.Map [])) = .error (.custom "boom")
    ∧ StringOrStruct.deserialize
        (fun _ => (Except.error (DeError.custom "boom") : Except DeError Nat))
        (.ok (.Seq [])) = .error (.custom "boom")
    ∧ SingleOrVec.deserialize
        (fun _ => (Except.error (DeError.custom "boom") : Except DeError Nat))
        (.ok (.String "a")) = .error (.custom "boom") := by
  obtain ⟨-, -, -, h4, -, h6, -, h8, -⟩ :=
    C6_errors_propagate_unchanged Nat Nat
      (fun _ => Except.error (DeError.custom "boom"))
      (fun _ => Except.error (DeError.custom "boom"))
      (DeError.custom "boom")
  exact ⟨(h4 [] rfl).1, h6 [] rfl, h8 (.String "a") rfl rfl⟩

/-- C7: whether a sequence-shaped input is accepted by `StringOrStruct`
depends only on the bound payload type: the result is always the payload
decoder's own verdict on the sequence, so `SimpleStruct` (a plain struct
with named fields) fails on a sequence of two struct maps while
`Vec<SimpleStruct>` succeeds on the same input, yielding the `Struct`
variant holding the vector. -/
theorem C7_sequence_acceptance_depends_on_payload
    (S : Type) (dS : Value → Except DeError S) :
    (∀ l, StringOrStruct.deserialize dS (.ok (.Seq l))
        = (dS (.Seq l)).map StringOrStruct.Struct)
    ∧ StringOrStruct.deserialize simpleStructDeserialize
        (.ok (.Seq
          [.Map [(.String "number", .U64 42), (.String "text", .String "some text")],
           .Map [(.String "number", .U64 3),
             (.String "text", .String "some other text")]]))
      = .error (.invalidType .Map "i32")
    ∧ StringOrStruct.deserialize (vecDeserialize simpleStructDeserialize)
        (.ok (.Seq
          [.Map [(.String "number", .U64 42), (.String "text", .String "some text")],
           .Map [(.String "number", .U64 3),
             (.String "text", .String "some other text")]]))
      = .ok (.Struct [⟨42, "some text"⟩, ⟨3, "some other text"⟩]) :=
  ⟨sos_seq dS, rfl, rfl⟩

/-- C8: serialization of every either-type delegates directly to the active
variant's payload serialize with no wrapper tag: whatever serializer
functions the payloads use, the wrapper's output equals the payload's own
output on every variant. -/
theorem C8_serialization_is_transparent (S V R : Type)
    (serStr : String → R) (serS : S → R) (serV : V → R) (serVec : List S → R)
    (s : String) (x : S) (v : V) (xs : List S) :
    StringOrStructOrVec.serialize serStr serS serV (.String s) = serStr s
    ∧ StringOrStructOrVec.serialize serStr serS serV (.Struct x) = serS x
    ∧ StringOrStructOrVec.serialize serStr serS serV (.Vec v) = serV v
    ∧ StringOrStruct.serialize serStr serS (.String s) = serStr s
    ∧ StringOrStruct.serialize serStr serS (.Struct x) = serS x
    ∧ SingleOrVec.serialize serS serVec (.Single x) = serS x
    ∧ SingleOrVec.serialize serS serVec (.Vec xs) = serVec xs :=
  ⟨rfl, rfl, rfl, rfl, rfl, rfl, rfl⟩

/-- C9: a byte-string input is classified into the `String` branch of both
dispatching either-types: the result is exactly the string re-decode of the
bytes (the `S` and `V` decoders never appear), succeeding with the `String`
variant when the bytes are valid UTF-8 and failing with the string
re-decoder's `invalid_value` error when they are not. -/
theorem C9_bytes_classified_as_string (S V : Type)
    (dS : Value → Except DeError S) (dV : Value → Except DeError V) (b : List Nat) :
    StringOrStructOrVec.deserialize dS dV (.ok (.Bytes b))
      = (stringDeserialize (.Bytes b)).map StringOrStructOrVec.String
    ∧ StringOrStruct.deserialize dS (.ok (.Bytes b))
      = (stringDeserialize (.Bytes b)).map StringOrStruct.String
    ∧ (∀ s, utf8Decode b = some s →
        StringOrStructOrVec.deserialize dS dV (.ok (.Bytes b)) = .ok (.String s)
        ∧ StringOrStruct.deserialize dS (.ok (.Bytes b)) = .ok (.String s))
    ∧ (utf8Decode b = none →
        StringOrStructOrVec.deserialize dS dV (.ok (.Bytes b))
          = .error (.invalidValue (.Bytes b) "a string")
        ∧ StringOrStruct.deserialize dS (.ok (.Bytes b))
          = .error (.invalidValue (.Bytes b) "a string")) := by
  refine ⟨dwe_bytes dS dV b "String, Struct or Vec", sos_bytes dS b, ?_, ?_⟩
  · intro s hs
    constructor
    · rw [show StringOrStructOrVec.deserialize dS dV (.ok (.Bytes b))
          = deserialize_with_expected dS dV (.ok (.Bytes b)) "String, Struct or Vec"
          from rfl, dwe_bytes dS dV b "String, Struct or Vec"]
      simp [stringDeserialize, hs, Except.map]
    · rw [sos_bytes dS b]
      simp [stringDeserialize, hs, Except.map]
  · intro hn
    constructor
    · rw [show StringOrStructOrVec.deserialize dS dV (.ok (.Bytes b))
          = deserialize_with_expected dS dV (.ok (.Bytes b)) "String, Struct or Vec"
          from rfl, dwe_bytes dS dV b "String, Struct or Vec"]
      simp [stringDeserialize, hn, Except.map]
    · rw [sos_bytes dS b]
      simp [stringDeserialize, hn, Except.map]

/-- Witness for C9: the single byte 0x68 is valid UTF-8 for "h" and decodes
to the `String` variant; the single byte 0xFF is not valid UTF-8 and fails
with the string re-decoder's `invalid_value` error. -/
theorem C9_witness :
    StringOrStructOrVec.deserialize (fun _ => (Except.ok 0 : Except DeError Nat))
        (fun _ => (Except.ok 0 : Except DeError Nat)) (.ok (.Bytes [104]))
      = .ok (.String "h")
    ∧ StringOrStruct.deserialize (fun _ => (Except.ok 0 : Except DeError Nat))
        (.ok (.Bytes [255]))
      = .error (.invalidValue (.Bytes [255]) "a string") := by
  constructor
  · exact ((C9_bytes_classified_as_string Nat Nat (fun _ => Except.ok 0)
      (fun _ => Except.ok 0) [104]).2.2.1 "h" rfl).1
  · exact ((C9_bytes_classified_as_string Nat Nat (fun _ => Except.ok 0)
      (fun _ => Except.ok 0) [255]).2.2.2 rfl).2

/-- C10: `clone` on each of the three either-types preserves the active
variant and clones its payload in place — a `String` variant clones to a
`String` variant with an equal string, `Struct`, `Vec` and `Single`
variants clone to the same variant holding the payload's own clone, and a
`SingleOrVec.Vec` clones every element; clone never switches variants. -/
theorem C10_clone_preserves_variant (S V : Type) (cloneS : S → S) (cloneV : V → V)
    (s : String) (x : S) (v : V) (xs : List S) :
    StringOrStruct.clone cloneS (.String s) = .String s
    ∧ StringOrStruct.clone cloneS (.Struct x) = .Struct (cloneS x)
    ∧ StringOrStructOrVec.clone cloneS cloneV (.String s) = .String s
    ∧ StringOrStructOrVec.clone cloneS cloneV (.Struct x) = .Struct (cloneS x)
    ∧ StringOrStructOrVec.clone cloneS cloneV (.Vec v) = .Vec (cloneV v)
    ∧ SingleOrVec.clone cloneS (.Single x) = .Single (cloneS x)
    ∧ SingleOrVec.clone cloneS (.Vec xs) = .Vec (xs.map cloneS) :=
  ⟨rfl, rfl, rfl, rfl, rfl, rfl, rfl⟩
